import Mathlib

/-!
Verification of the Semantic Workbench front-end chat component and the .NET
connector example, as a shallow embedding in Lean.

The embedded code:
* `src/workbench-app/src/components/FrontDoor/Chat/Chat.tsx` — the `Chat`
  component: the `conversationAssistants` memo, the `conversation.updated`
  subscription effect, the `otherParticipants` computation, and the render
  logic with its thrown errors.
* `src/examples/dotnet/dotnet-03-simple-chatbot/MyWorkbenchConnector.cs` —
  `CreateAgentAsync`.

External collaborators that are not among the provided sources
(`useHistoryUtility`, `useParticipantUtility`, the base `WorkbenchConnector`
class, the browser locale comparison) are modelled from the specification or
kept abstract as parameters, each marked in its doc comment.
-/

namespace SemanticWorkbench

/-- An entry of the assistant directory (`models/Assistant`): the fields the
`Chat` component reads are the id and the display name. -/
structure Assistant where
  id : String
  name : String
deriving Repr, DecidableEq

/-- A conversation participant as read by the `Chat` component: id, role
(the code compares the role against the string literal `assistant`), the
active flag, and a display name. -/
structure ConversationParticipant where
  id : String
  role : String
  active : Bool
  name : String
deriving Repr, DecidableEq

/-- The filter applied inside the `conversationAssistants` loop:
`if (!conversationParticipant.active || conversationParticipant.role !== 'assistant') continue;`
keeps exactly the participants that are active and have role `assistant`. -/
def activeAssistant (p : ConversationParticipant) : Bool :=
  p.active && p.role == "assistant"

/-- `assistants.find((assistant) => assistant.id === conversationParticipant.id)`:
first directory entry whose id equals the participant id, if any. -/
def lookupAssistant (directory : List Assistant) (pid : String) : Option Assistant :=
  directory.find? (fun a => a.id == pid)

/-- The name order induced by the comparator passed to
`results.sort((a, b) => a.name.localeCompare(b.name))`. The locale comparison
itself is a browser API, kept abstract as `le`. -/
def nameLe (le : String → String → Bool) (a b : Assistant) : Prop :=
  le a.name b.name = true

instance (le : String → String → Bool) : DecidableRel (nameLe le) :=
  fun a b => by unfold nameLe; infer_instance

/-- `results.sort((a, b) => a.name.localeCompare(b.name))`, modelled as a
stable sort with respect to the comparator order (JavaScript `Array.sort` is
stable and, for a consistent comparator, produces a list sorted by it). -/
def sortByName (le : String → String → Bool) (results : List Assistant) : List Assistant :=
  results.insertionSort (nameLe le)

/-- The `for (let conversationParticipant of conversationParticipants)` loop of
the `conversationAssistants` memo, with the `results` accumulator explicit.
The second component counts the `assistantsRefetch()` calls made by the pass:
on the first unresolvable active assistant the loop calls `assistantsRefetch()`
once and returns `undefined` (here `none`); if every active assistant resolves
it returns the accumulated list sorted by name and makes no refetch call. -/
def assistantsLoop (le : String → String → Bool) (directory : List Assistant) :
    List Assistant → List ConversationParticipant → Option (List Assistant) × Nat
  | results, [] => (some (sortByName le results), 0)
  | results, p :: rest =>
    if activeAssistant p then
      match lookupAssistant directory p.id with
      | some a => assistantsLoop le directory (results ++ [a]) rest
      | none => (none, 1)
    else
      assistantsLoop le directory results rest

/-- The `conversationAssistants` memo of `Chat.tsx`. When either the
participant list or the assistant directory has not loaded it returns the
empty `results` array with no refetch; otherwise it runs the loop. The first
component is the returned value (`none` models `undefined`), the second the
number of `assistantsRefetch()` calls of the pass. -/
def conversationAssistants (le : String → String → Bool)
    (conversationParticipants : Option (List ConversationParticipant))
    (assistants : Option (List Assistant)) : Option (List Assistant) × Nat :=
  match conversationParticipants, assistants with
  | some ps, some directory => assistantsLoop le directory [] ps
  | _, _ => (some [], 0)

/-- The directory entries of the active assistant-role participants, in
participant order: the reference value the successful loop accumulates. -/
def resolvedAssistants (directory : List Assistant)
    (ps : List ConversationParticipant) : List Assistant :=
  ps.filterMap (fun p => if activeAssistant p then lookupAssistant directory p.id else none)

lemma assistantsLoop_of_resolvable (le : String → String → Bool)
    (directory : List Assistant) (ps : List ConversationParticipant) :
    ∀ acc : List Assistant,
      (∀ p ∈ ps, activeAssistant p = true → (lookupAssistant directory p.id).isSome = true) →
      assistantsLoop le directory acc ps =
        (some (sortByName le (acc ++ resolvedAssistants directory ps)), 0) := by
  induction ps with
  | nil => intro acc _; simp [assistantsLoop, resolvedAssistants]
  | cons p rest ih =>
    intro acc h
    by_cases hp : activeAssistant p = true
    · have hs : (lookupAssistant directory p.id).isSome = true :=
        h p (List.mem_cons_self p rest) hp
      obtain ⟨a, ha⟩ := Option.isSome_iff_exists.mp hs
      have hrest := ih (acc ++ [a]) (fun q hq hqa => h q (List.mem_cons_of_mem p hq) hqa)
      simp only [assistantsLoop, hp, if_true, ha, hrest, resolvedAssistants,
        List.filterMap_cons, if_pos hp]
      simp [List.append_assoc]
    · have hrest := ih acc (fun q hq hqa => h q (List.mem_cons_of_mem p hq) hqa)
      simp [assistantsLoop, hp, hrest, resolvedAssistants, List.filterMap_cons]

lemma assistantsLoop_of_miss (le : String → String → Bool)
    (directory : List Assistant) (ps : List ConversationParticipant) :
    ∀ acc : List Assistant,
      (∃ p ∈ ps, activeAssistant p = true ∧ lookupAssistant directory p.id = none) →
      assistantsLoop le directory acc ps = (none, 1) := by
  induction ps with
  | nil => intro acc h; obtain ⟨p, hp, _⟩ := h; exact absurd hp (List.not_mem_nil p)
  | cons q rest ih =>
    intro acc h
    by_cases hq : activeAssistant q = true
    · cases hl : lookupAssistant directory q.id with
      | none => simp [assistantsLoop, hq, hl]
      | some a =>
        obtain ⟨p, hp, hpa, hpl⟩ := h
        rcases List.mem_cons.mp hp with rfl | hmem
        · rw [hl] at hpl; exact absurd hpl (by simp)
        · simp only [assistantsLoop, hq, if_true, hl]
          exact ih (acc ++ [a]) ⟨p, hmem, hpa, hpl⟩
    · obtain ⟨p, hp, hpa, hpl⟩ := h
      rcases List.mem_cons.mp hp with rfl | hmem
      · exact absurd hpa hq
      · simp only [assistantsLoop, hq, if_false]
        exact ih acc ⟨p, hmem, hpa, hpl⟩

lemma length_resolvedAssistants (directory : List Assistant)
    (ps : List ConversationParticipant)
    (h : ∀ p ∈ ps, activeAssistant p = true → (lookupAssistant directory p.id).isSome = true) :
    (resolvedAssistants directory ps).length = ps.countP activeAssistant := by
  induction ps with
  | nil => simp [resolvedAssistants]
  | cons p rest ih =>
    have hrest := ih (fun q hq hqa => h q (List.mem_cons_of_mem p hq) hqa)
    by_cases hp : activeAssistant p = true
    · obtain ⟨a, ha⟩ := Option.isSome_iff_exists.mp (h p (List.mem_cons_self p rest) hp)
      simp [resolvedAssistants, List.filterMap_cons, hp, ha, List.countP_cons] at *
      omega
    · simp [resolvedAssistants, List.filterMap_cons, hp, List.countP_cons] at *
      omega

/-- Claim C1: if every active, assistant-role participant has a matching id in
the assistant directory, `conversationAssistants` returns (with no refetch
call) a list that is a permutation of the directory entries of exactly those
participants, whose length is the count of active assistant-role participants,
sorted ascending by assistant name under the (total, transitive) locale
comparison order. -/
theorem conversationAssistants_complete (le : String → String → Bool)
    (htrans : ∀ a b c, le a b = true → le b c = true → le a c = true)
    (htotal : ∀ a b, le a b = true ∨ le b a = true)
    (ps : List ConversationParticipant) (directory : List Assistant)
    (hres : ∀ p ∈ ps, activeAssistant p = true → (lookupAssistant directory p.id).isSome = true) :
    ∃ l, conversationAssistants le (some ps) (some directory) = (some l, 0) ∧
      l.Perm (resolvedAssistants directory ps) ∧
      l.length = ps.countP activeAssistant ∧
      l.Sorted (nameLe le) := by
  haveI : IsTotal Assistant (nameLe le) := ⟨fun a b => htotal a.name b.name⟩
  haveI : IsTrans Assistant (nameLe le) := ⟨fun a b c => htrans a.name b.name c.name⟩
  refine ⟨sortByName le (resolvedAssistants directory ps), ?_, ?_, ?_, ?_⟩
  · have := assistantsLoop_of_resolvable le directory ps [] hres
    simpa [conversationAssistants] using this
  · exact List.perm_insertionSort (nameLe le) (resolvedAssistants directory ps)
  · rw [sortByName, List.length_insertionSort]
    exact length_resolvedAssistants directory ps hres
  · exact List.sorted_insertionSort (nameLe le) (resolvedAssistants directory ps)

/-- A stand-in for the abstract locale comparison: the standard string order. -/
def stdLe (a b : String) : Bool := decide (a ≤ b)

lemma stdLe_trans : ∀ a b c, stdLe a b = true → stdLe b c = true → stdLe a c = true := by
  intro a b c h1 h2
  simp only [stdLe, decide_eq_true_eq] at *
  exact le_trans h1 h2

lemma stdLe_total : ∀ a b, stdLe a b = true ∨ stdLe b a = true := by
  intro a b
  simp only [stdLe, decide_eq_true_eq]
  exact le_total a b

/-- The scenario participants of the specification: a user, an active
assistant `a1`, and an inactive assistant `a2`. -/
def demoParticipants : List ConversationParticipant :=
  [⟨"u1", "user", true, "User One"⟩,
   ⟨"a1", "assistant", true, "Bravo"⟩,
   ⟨"a2", "assistant", false, "Alpha"⟩]

/-- The scenario assistant directory: only `a1` is present. -/
def demoDirectory : List Assistant := [⟨"a1", "Bravo"⟩]

/-- Witness for claim C1 at the scenario of the specification. -/
theorem conversationAssistants_complete_witness :
    ∃ l, conversationAssistants stdLe (some demoParticipants) (some demoDirectory) =
        (some l, 0) ∧
      l.Perm (resolvedAssistants demoDirectory demoParticipants) ∧
      l.length = demoParticipants.countP activeAssistant ∧
      l.Sorted (nameLe stdLe) :=
  conversationAssistants_complete stdLe stdLe_trans stdLe_total
    demoParticipants demoDirectory (by decide)

/-- Claim C2: if some active, assistant-role participant has no matching id in
the assistant directory, the pass abandons the partial result, returns
`undefined`, and makes exactly one `assistantsRefetch()` call (it stops at the
first miss). -/
theorem conversationAssistants_miss (le : String → String → Bool)
    (ps : List ConversationParticipant) (directory : List Assistant)
    (h : ∃ p ∈ ps, activeAssistant p = true ∧ lookupAssistant directory p.id = none) :
    conversationAssistants le (some ps) (some directory) = (none, 1) := by
  simpa [conversationAssistants] using assistantsLoop_of_miss le directory ps [] h

/-- An active assistant-role participant that no directory resolves. -/
def orphanParticipant : ConversationParticipant := ⟨"a9", "assistant", true, "Ghost"⟩

/-- Witness for claim C2: the scenario participants against an empty
directory leave the active assistant `a1` unresolved. -/
theorem conversationAssistants_miss_witness :
    conversationAssistants stdLe (some demoParticipants) (some []) = (none, 1) :=
  conversationAssistants_miss stdLe demoParticipants [] (by decide)

/-- Claim C9: when either the participant list or the assistant directory has
not yet loaded, `conversationAssistants` returns the empty array (not
`undefined`) and makes no `assistantsRefetch()` call — unlike the
directory-miss case, which returns `undefined` with exactly one refetch call,
as the last conjunct shows on a concrete miss. -/
theorem conversationAssistants_not_loaded (le : String → String → Bool) :
    (∀ assistants, conversationAssistants le none assistants = (some [], 0)) ∧
    (∀ ps, conversationAssistants le ps none = (some [], 0)) ∧
    conversationAssistants le (some [orphanParticipant]) (some []) = (none, 1) := by
  refine ⟨fun assistants => rfl, fun ps => ?_, ?_⟩
  · cases ps <;> rfl
  · simp [conversationAssistants, assistantsLoop, activeAssistant, orphanParticipant,
      lookupAssistant]

/-- The `otherParticipants` computation of `Chat.tsx`:
`sortParticipants(conversationParticipants).filter((participant) => participant.id !== localUserId)`.
The participant-sort utility comes from `useParticipantUtility`, whose source is
not among the provided files, so it is kept abstract as a parameter. -/
def otherParticipants
    (sortParticipants : List ConversationParticipant → List ConversationParticipant)
    (conversationParticipants : List ConversationParticipant)
    (localUserId : String) : List ConversationParticipant :=
  (sortParticipants conversationParticipants).filter (fun p => p.id != localUserId)

/-- Claim C6: for every participant list and local user id, `otherParticipants`
is a sublist of the output of the participant-sort utility (so the relative
order produced by the sort is preserved), and it contains a participant
exactly when the sorted list contains it and its id differs from the local
user id (self is excluded, every other participant is retained). -/
theorem otherParticipants_spec
    (sortParticipants : List ConversationParticipant → List ConversationParticipant)
    (ps : List ConversationParticipant) (localUserId : String) :
    List.Sublist (otherParticipants sortParticipants ps localUserId) (sortParticipants ps) ∧
    (∀ p, p ∈ otherParticipants sortParticipants ps localUserId ↔
      p ∈ sortParticipants ps ∧ p.id ≠ localUserId) := by
  constructor
  · exact List.filter_sublist (sortParticipants ps)
  · intro p
    simp [otherParticipants, List.mem_filter]

/-- The payload delivered by the event stream: the `Chat` handler receives an
`EventSourceMessage` and ignores it entirely. -/
structure EventSourceMessage where
  event : String
  data : String
deriving Repr, DecidableEq

/-- A conversation as read by the `Chat` component. -/
structure Conversation where
  id : String
  title : String
  conversationPermission : String
deriving Repr, DecidableEq

/-- A conversation message (fields the view passes through). -/
structure Message where
  id : String
  sender : String
  content : String
deriving Repr, DecidableEq

/-- A conversation file (field the view passes through). -/
structure ConversationFile where
  filename : String
deriving Repr, DecidableEq

/-- The full conversation state held by the history utility: conversation,
message, participant and file state. -/
structure ConversationSnapshot where
  conversation : Option Conversation
  messages : List Message
  participants : List ConversationParticipant
  files : List ConversationFile
deriving Repr, DecidableEq

/-- Modelled from the spec: `refetchConversation` from `useHistoryUtility`
(whose source is not among the provided files) awaits a full re-fetch of
conversation, message, participant, and file state from the service, replacing
the local snapshot wholesale; there is no incremental/delta protocol, so the
result is independent of the previous local state. -/
def refetchConversation (server : ConversationSnapshot)
    (_localState : ConversationSnapshot) : ConversationSnapshot :=
  server

/-- The `conversationHandler` installed by the subscription effect:
`async (_event) => { await refetchConversation(); }`. It returns the new local
state together with the number of `refetchConversation` invocations it made. -/
def conversationHandler (server : ConversationSnapshot) (_event : EventSourceMessage)
    (localState : ConversationSnapshot) : ConversationSnapshot × Nat :=
  (refetchConversation server localState, 1)

/-- The registration state of the `conversation.updated` subscription effect of
`Chat.tsx`: whether the component is mounted, how many handlers added by this
component are currently registered on `workbenchConversationEvents`, and the
cumulative number of `refetchConversation` calls made by delivered events. -/
structure SubscriptionState where
  mounted : Bool
  handlersInstalled : Nat
  refetchCalls : Nat
deriving Repr, DecidableEq

/-- The lifecycle events acting on the subscription state: an effect
synchronisation (React runs the previous cleanup, then the body, which
installs the handler unless `historyIsLoading`), an unmount (React runs the
cleanup only), and the delivery of a `conversation.updated` event to every
registered handler. -/
inductive ChatLifecycleEvent where
  | effectSync (historyIsLoading : Bool)
  | unmount
  | deliver (e : EventSourceMessage)
deriving Repr, DecidableEq

/-- One step of the subscription lifecycle. An effect synchronisation first
removes the handler the previous run added (the cleanup calls
`removeEventListener` on exactly that handler) and then adds one handler unless
`historyIsLoading` is true (the body returns early in that case, adding
nothing). Unmount runs the cleanup and stops the component. A delivered event
invokes each registered handler once; each invocation calls
`refetchConversation` exactly once, regardless of the payload. -/
def subscriptionStep : ChatLifecycleEvent → SubscriptionState → SubscriptionState
  | .effectSync historyIsLoading, s =>
    if s.mounted then
      { s with handlersInstalled := if historyIsLoading then 0 else 1 }
    else s
  | .unmount, s => { s with mounted := false, handlersInstalled := 0 }
  | .deliver _, s => { s with refetchCalls := s.refetchCalls + s.handlersInstalled }

/-- Run a sequence of lifecycle events from a subscription state. -/
def subscriptionRun (events : List ChatLifecycleEvent) (s : SubscriptionState) :
    SubscriptionState :=
  events.foldl (fun st ev => subscriptionStep ev st) s

/-- The state at mount: no handler registered yet, no refetch made. -/
def initialSubscriptionState : SubscriptionState :=
  { mounted := true, handlersInstalled := 0, refetchCalls := 0 }

/-- Claim C3: with one live handler registered, delivering a
`conversation.updated` event makes exactly one additional `refetchConversation`
call; the handler itself performs exactly one refetch, the refetch replaces the
local snapshot with the full server state (independent of the previous local
state — no incremental protocol), and the handler ignores the event payload. -/
theorem conversationUpdated_one_refetch
    (server localState localState2 : ConversationSnapshot)
    (e e2 : EventSourceMessage) (s : SubscriptionState)
    (hlive : s.handlersInstalled = 1) :
    (subscriptionStep (.deliver e) s).refetchCalls = s.refetchCalls + 1 ∧
    (conversationHandler server e localState).2 = 1 ∧
    (conversationHandler server e localState).1 = server ∧
    conversationHandler server e localState = conversationHandler server e2 localState2 := by
  refine ⟨?_, rfl, rfl, rfl⟩
  simp [subscriptionStep, hlive]

/-- A concrete empty snapshot for witnesses. -/
def emptySnapshot : ConversationSnapshot := ⟨none, [], [], []⟩

/-- A concrete snapshot with one message, used as server state in witnesses. -/
def serverSnapshot : ConversationSnapshot :=
  ⟨some ⟨"c1", "Demo", "read"⟩, [⟨"m1", "u1", "hello"⟩], demoParticipants, []⟩

/-- Witness for claim C3 at a concrete live state and two distinct payloads. -/
theorem conversationUpdated_one_refetch_witness :
    (subscriptionStep (.deliver ⟨"conversation.updated", "x"⟩)
        ⟨true, 1, 5⟩).refetchCalls = 6 ∧
    (conversationHandler serverSnapshot ⟨"conversation.updated", "x"⟩ emptySnapshot).2 = 1 ∧
    (conversationHandler serverSnapshot ⟨"conversation.updated", "x"⟩ emptySnapshot).1 =
      serverSnapshot ∧
    conversationHandler serverSnapshot ⟨"conversation.updated", "x"⟩ emptySnapshot =
      conversationHandler serverSnapshot ⟨"conversation.updated", "y"⟩ serverSnapshot :=
  conversationUpdated_one_refetch serverSnapshot emptySnapshot serverSnapshot
    ⟨"conversation.updated", "x"⟩ ⟨"conversation.updated", "y"⟩ ⟨true, 1, 5⟩ rfl

/-- The reachability invariant of the subscription machine: this component
never has two handlers registered, and an unmounted component has none. -/
def SubscriptionInv (s : SubscriptionState) : Prop :=
  s.handlersInstalled ≤ 1 ∧ (s.mounted = false → s.handlersInstalled = 0)

lemma subscriptionStep_inv (ev : ChatLifecycleEvent) (s : SubscriptionState)
    (h : SubscriptionInv s) : SubscriptionInv (subscriptionStep ev s) := by
  obtain ⟨h1, h2⟩ := h
  cases ev with
  | effectSync loading =>
    by_cases hm : s.mounted <;> cases loading <;>
      simp [subscriptionStep, SubscriptionInv, hm, h1, h2]
  | unmount => simp [subscriptionStep, SubscriptionInv]
  | deliver e => simpa [subscriptionStep, SubscriptionInv] using ⟨h1, h2⟩

lemma subscriptionRun_inv (events : List ChatLifecycleEvent) (s : SubscriptionState)
    (h : SubscriptionInv s) : SubscriptionInv (subscriptionRun events s) := by
  induction events generalizing s with
  | nil => exact h
  | cons ev rest ih => exact ih (subscriptionStep ev s) (subscriptionStep_inv ev s h)

lemma subscriptionRun_append (events tail : List ChatLifecycleEvent)
    (s : SubscriptionState) :
    subscriptionRun (events ++ tail) s = subscriptionRun tail (subscriptionRun events s) := by
  simp [subscriptionRun, List.foldl_append]

/-- Claim C4: starting from mount, at most one handler added by this component
is ever registered (no duplicates accumulate across effect re-runs); after an
effect synchronisation that sees `historyIsLoading = true` no handler is
registered (the listener is installed only after the initial load completes),
and after an unmount no handler is registered. -/
theorem subscription_no_duplicate_handlers :
    (∀ events, (subscriptionRun events initialSubscriptionState).handlersInstalled ≤ 1) ∧
    (∀ events,
      (subscriptionRun (events ++ [.effectSync true])
        initialSubscriptionState).handlersInstalled = 0) ∧
    (∀ events,
      (subscriptionRun (events ++ [.unmount])
        initialSubscriptionState).handlersInstalled = 0) := by
  have hinit : SubscriptionInv initialSubscriptionState := by
    simp [SubscriptionInv, initialSubscriptionState]
  refine ⟨fun events => (subscriptionRun_inv events _ hinit).1, fun events => ?_, fun events => ?_⟩
  · rw [subscriptionRun_append]
    have hinv := subscriptionRun_inv events _ hinit
    set s := subscriptionRun events initialSubscriptionState with hs
    by_cases hm : s.mounted
    · simp [subscriptionRun, subscriptionStep, hm]
    · have h0 : s.handlersInstalled = 0 := hinv.2 (by simpa using hm)
      simp [subscriptionRun, subscriptionStep, hm, h0]
  · rw [subscriptionRun_append]
    simp [subscriptionRun, subscriptionStep]

/-- Recogniser for delivery events, used to quantify over post-unmount event
traffic decidably. -/
def isDeliver : ChatLifecycleEvent → Bool
  | .deliver _ => true
  | _ => false

lemma subscriptionRun_delivers_no_handler (tail : List ChatLifecycleEvent)
    (s : SubscriptionState) (htail : tail.all isDeliver = true)
    (h0 : s.handlersInstalled = 0) : subscriptionRun tail s = s := by
  induction tail with
  | nil => rfl
  | cons ev rest ih =>
    have hall : isDeliver ev = true ∧ rest.all isDeliver = true := by
      simpa [List.all_cons, Bool.and_eq_true] using htail
    cases ev with
    | effectSync loading => simp [isDeliver] at hall
    | unmount => simp [isDeliver] at hall
    | deliver e =>
      have hstep : subscriptionStep (.deliver e) s = s := by
        obtain ⟨m, hi, rc⟩ := s
        simp at h0
        simp [subscriptionStep, h0]
      rw [subscriptionRun, List.foldl_cons]
      rw [subscriptionRun] at ih
      rw [hstep]
      exact ih hall.2

/-- Claim C5: after the component unmounts, the handler it added has been
removed: no handler remains registered, and any number of subsequently
delivered `conversation.updated` events produces zero further
`refetchConversation` calls — the state does not change at all, so pending
handlers never accumulate. -/
theorem unmount_removes_listener (events tail : List ChatLifecycleEvent)
    (htail : tail.all isDeliver = true) :
    (subscriptionRun (events ++ [.unmount]) initialSubscriptionState).handlersInstalled
      = 0 ∧
    subscriptionRun (events ++ [.unmount] ++ tail) initialSubscriptionState =
      subscriptionRun (events ++ [.unmount]) initialSubscriptionState ∧
    (subscriptionRun (events ++ [.unmount] ++ tail) initialSubscriptionState).refetchCalls
      = (subscriptionRun (events ++ [.unmount]) initialSubscriptionState).refetchCalls := by
  have h0 : (subscriptionRun (events ++ [.unmount])
      initialSubscriptionState).handlersInstalled = 0 := by
    rw [subscriptionRun_append]
    simp [subscriptionRun, subscriptionStep]
  have heq : subscriptionRun (events ++ [.unmount] ++ tail) initialSubscriptionState =
      subscriptionRun (events ++ [.unmount]) initialSubscriptionState := by
    rw [subscriptionRun_append]
    exact subscriptionRun_delivers_no_handler tail _ htail h0
  exact ⟨h0, heq, by rw [heq]⟩

/-- Witness for claim C5: mount, load, subscribe, receive one event, unmount,
then two more events arrive — the state is unchanged by them. -/
theorem unmount_removes_listener_witness :
    (subscriptionRun ([ChatLifecycleEvent.effectSync false,
        ChatLifecycleEvent.deliver ⟨"conversation.updated", "a"⟩] ++
        [ChatLifecycleEvent.unmount]) initialSubscriptionState).handlersInstalled = 0 ∧
    subscriptionRun ([ChatLifecycleEvent.effectSync false,
        ChatLifecycleEvent.deliver ⟨"conversation.updated", "a"⟩] ++
        [ChatLifecycleEvent.unmount] ++
        [ChatLifecycleEvent.deliver ⟨"conversation.updated", "b"⟩,
         ChatLifecycleEvent.deliver ⟨"conversation.updated", "c"⟩])
        initialSubscriptionState =
      subscriptionRun ([ChatLifecycleEvent.effectSync false,
        ChatLifecycleEvent.deliver ⟨"conversation.updated", "a"⟩] ++
        [ChatLifecycleEvent.unmount]) initialSubscriptionState ∧
    (subscriptionRun ([ChatLifecycleEvent.effectSync false,
        ChatLifecycleEvent.deliver ⟨"conversation.updated", "a"⟩] ++
        [ChatLifecycleEvent.unmount] ++
        [ChatLifecycleEvent.deliver ⟨"conversation.updated", "b"⟩,
         ChatLifecycleEvent.deliver ⟨"conversation.updated", "c"⟩])
        initialSubscriptionState).refetchCalls =
      (subscriptionRun ([ChatLifecycleEvent.effectSync false,
        ChatLifecycleEvent.deliver ⟨"conversation.updated", "a"⟩] ++
        [ChatLifecycleEvent.unmount]) initialSubscriptionState).refetchCalls :=
  unmount_removes_listener
    [ChatLifecycleEvent.effectSync false,
     ChatLifecycleEvent.deliver ⟨"conversation.updated", "a"⟩]
    [ChatLifecycleEvent.deliver ⟨"conversation.updated", "b"⟩,
     ChatLifecycleEvent.deliver ⟨"conversation.updated", "c"⟩]
    (by decide)

/-- The inputs of one render pass of the `Chat` component: the props and the
values produced by `useHistoryUtility` and the local-user selector.
`historyError` carries the already-serialized error (`JSON.stringify` of the
error object). -/
structure ChatInputs where
  conversationId : String
  historyError : Option String
  historyIsLoading : Bool
  assistantCapabilitiesIsFetching : Bool
  conversation : Option Conversation
  allConversationMessages : Option (List Message)
  conversationParticipants : Option (List ConversationParticipant)
  assistants : Option (List Assistant)
  conversationFiles : Option (List ConversationFile)
  assistantCapabilities : Option (List String)
  localUserId : String
deriving Repr, DecidableEq

/-- The observable outcome of one render pass: a thrown error with its exact
message, the loading view, or the rendered view (recording the read-only flag,
the `conversationAssistants` value handed to the canvas, and the computed
other-participant list). -/
inductive RenderOutcome where
  | thrown (message : String)
  | loading
  | rendered (readOnly : Bool) (canvasAssistants : Option (List Assistant))
      (others : List ConversationParticipant)
deriving Repr, DecidableEq

/-- One render pass of the `Chat` component, in source order: throw on
`historyError`; compute the `conversationAssistants` memo; return the loading
view while `historyIsLoading` or `assistantCapabilitiesIsFetching`; throw on
each of the five missing resources with the exact message of the source; else
render. The second component counts the `assistantsRefetch()` calls of the
pass. -/
def chatRender (le : String → String → Bool)
    (sortParticipants : List ConversationParticipant → List ConversationParticipant)
    (inp : ChatInputs) : RenderOutcome × Nat :=
  match inp.historyError with
  | some err =>
    (.thrown ("Error loading conversation (" ++ inp.conversationId ++ "): " ++ err), 0)
  | none =>
    let pass := conversationAssistants le inp.conversationParticipants inp.assistants
    if inp.historyIsLoading || inp.assistantCapabilitiesIsFetching then
      (.loading, pass.2)
    else
      match inp.conversation with
      | none => (.thrown ("Conversation (" ++ inp.conversationId ++ ") not found"), pass.2)
      | some conversation =>
        match inp.allConversationMessages with
        | none =>
          (.thrown ("All conversation messages (" ++ inp.conversationId ++ ") not found"),
            pass.2)
        | some _ =>
          match inp.conversationParticipants with
          | none =>
            (.thrown ("Conversation participants (" ++ inp.conversationId ++ ") not found"),
              pass.2)
          | some participants =>
            match inp.assistants with
            | none => (.thrown ("Assistants (" ++ inp.conversationId ++ ") not found"), pass.2)
            | some _ =>
              match inp.conversationFiles with
              | none =>
                (.thrown ("Conversation files (" ++ inp.conversationId ++ ") not found"),
                  pass.2)
              | some _ =>
                (.rendered (conversation.conversationPermission == "read") pass.1
                  (otherParticipants sortParticipants participants inp.localUserId), pass.2)

/-- Claim C8: whenever `historyError` is set, the render pass throws an error
whose message is exactly the concatenation of the conversation id and the
serialized error, making no refetch call — the throw is the only handling. -/
theorem historyError_throws (le : String → String → Bool)
    (sortParticipants : List ConversationParticipant → List ConversationParticipant)
    (inp : ChatInputs) (err : String) (h : inp.historyError = some err) :
    chatRender le sortParticipants inp =
      (.thrown ("Error loading conversation (" ++ inp.conversationId ++ "): " ++ err), 0) := by
  simp [chatRender, h]

/-- A failed-load input: everything else is present, but the history fetch
reported a serialized error. -/
def failedLoadInputs : ChatInputs :=
  { conversationId := "c1"
    historyError := some "boom"
    historyIsLoading := false
    assistantCapabilitiesIsFetching := false
    conversation := some ⟨"c1", "Demo", "read"⟩
    allConversationMessages := some []
    conversationParticipants := some demoParticipants
    assistants := some demoDirectory
    conversationFiles := some []
    assistantCapabilities := some []
    localUserId := "u1" }

/-- Witness for claim C8 at a concrete failed load. -/
theorem historyError_throws_witness :
    chatRender stdLe (fun l => l) failedLoadInputs =
      (RenderOutcome.thrown "Error loading conversation (c1): boom", 0) :=
  historyError_throws stdLe (fun l => l) failedLoadInputs "boom" rfl

/-- A render input whose history load has finished with no error and whose
resources are all absent, but whose assistant-capabilities query is still
fetching. -/
def capabilitiesFetchingInputs : ChatInputs :=
  { conversationId := "c1"
    historyError := none
    historyIsLoading := false
    assistantCapabilitiesIsFetching := true
    conversation := none
    allConversationMessages := none
    conversationParticipants := none
    assistants := none
    conversationFiles := none
    assistantCapabilities := none
    localUserId := "u1" }

/-- Counterexample to claim C7 as stated: with `historyIsLoading = false` and
no load error, but `assistantCapabilitiesIsFetching = true`, the conversation
(and every other resource) is absent yet the component renders the loading
view instead of throwing. -/
theorem missingResource_no_throw_while_capabilities_fetching :
    chatRender stdLe (fun l => l) capabilitiesFetchingInputs = (RenderOutcome.loading, 0) := by
  rfl

/-- Claim C7 (amended: the render pass must also not be gated by
`assistantCapabilitiesIsFetching`, which returns the loading view before the
missing-resource checks run): with no load error, `historyIsLoading = false`
and `assistantCapabilitiesIsFetching = false`, the pass throws whenever any of
the five resources (conversation, messages, participants, assistants, files)
is absent, and renders whenever all five are present — the absent
`assistantCapabilities` never causes a throw. -/
theorem missingResource_throws (le : String → String → Bool)
    (sortParticipants : List ConversationParticipant → List ConversationParticipant)
    (inp : ChatInputs) (herr : inp.historyError = none)
    (hload : inp.historyIsLoading = false)
    (hcap : inp.assistantCapabilitiesIsFetching = false) :
    ((inp.conversation = none ∨ inp.allConversationMessages = none ∨
        inp.conversationParticipants = none ∨ inp.assistants = none ∨
        inp.conversationFiles = none) →
      ∃ msg, (chatRender le sortParticipants inp).1 = .thrown msg) ∧
    (inp.conversation.isSome = true → inp.allConversationMessages.isSome = true →
      inp.conversationParticipants.isSome = true → inp.assistants.isSome = true →
      inp.conversationFiles.isSome = true →
      ∃ ro ca others, (chatRender le sortParticipants inp).1 = .rendered ro ca others) := by
  constructor
  · intro hmiss
    simp only [chatRender, herr, hload, hcap, Bool.or_self, if_false]
    cases hc : inp.conversation with
    | none => exact ⟨_, rfl⟩
    | some conversation =>
      cases hm : inp.allConversationMessages with
      | none => exact ⟨_, rfl⟩
      | some msgs =>
        cases hp : inp.conversationParticipants with
        | none => exact ⟨_, rfl⟩
        | some participants =>
          cases ha : inp.assistants with
          | none => exact ⟨_, rfl⟩
          | some assistants =>
            cases hf : inp.conversationFiles with
            | none => exact ⟨_, rfl⟩
            | some files =>
              rw [hc, hm, hp, ha, hf] at hmiss
              rcases hmiss with h | h | h | h | h <;> exact absurd h (by simp)
  · intro hc hm hp ha hf
    obtain ⟨conversation, hc⟩ := Option.isSome_iff_exists.mp hc
    obtain ⟨msgs, hm⟩ := Option.isSome_iff_exists.mp hm
    obtain ⟨participants, hp⟩ := Option.isSome_iff_exists.mp hp
    obtain ⟨assistants, ha⟩ := Option.isSome_iff_exists.mp ha
    obtain ⟨files, hf⟩ := Option.isSome_iff_exists.mp hf
    refine ⟨conversation.conversationPermission == "read",
      (conversationAssistants le (some participants) (some assistants)).1,
      otherParticipants sortParticipants participants inp.localUserId, ?_⟩
    simp only [chatRender, herr, hload, hcap, Bool.or_self, if_false, hc, hm, hp, ha, hf]
    simp

/-- A render input after a fully successful load, with the conversation absent
(the other four resources present). -/
def missingConversationInputs : ChatInputs :=
  { capabilitiesFetchingInputs with
    assistantCapabilitiesIsFetching := false
    allConversationMessages := some []
    conversationParticipants := some demoParticipants
    assistants := some demoDirectory
    conversationFiles := some [] }

/-- A render input after a fully successful load with all five resources
present and `assistantCapabilities` still absent. -/
def completeLoadInputs : ChatInputs :=
  { missingConversationInputs with conversation := some ⟨"c1", "Demo", "read"⟩ }

/-- Witness for the amended claim C7: a missing conversation throws, and a
complete load renders even though `assistantCapabilities` is absent. -/
theorem missingResource_throws_witness :
    (∃ msg, (chatRender stdLe (fun l => l) missingConversationInputs).1 =
      RenderOutcome.thrown msg) ∧
    (∃ ro ca others, (chatRender stdLe (fun l => l) completeLoadInputs).1 =
      RenderOutcome.rendered ro ca others) :=
  ⟨(missingResource_throws stdLe (fun l => l) missingConversationInputs rfl rfl rfl).1
      (Or.inl rfl),
   (missingResource_throws stdLe (fun l => l) completeLoadInputs rfl rfl rfl).2
      rfl rfl rfl rfl rfl⟩

/-- The agent configuration of the dotnet-03-simple-chatbot example (the
fields are opaque to `CreateAgentAsync`; one representative field). -/
structure MyAgentConfig where
  systemPrompt : String
deriving Repr, DecidableEq

/-- The agent instantiated by `CreateAgentAsync` via `ActivatorUtilities`:
agent id, agent name (the given name, or the id when the name is null), the
chosen configuration, and whether `StartAsync` has run. -/
structure MyAgent where
  agentId : String
  agentName : String
  config : MyAgentConfig
  started : Bool
deriving Repr, DecidableEq

/-- The state of `MyWorkbenchConnector` that `CreateAgentAsync` reads and
writes: the `Agents` dictionary of the base class (keyed by agent id), the
default agent configuration, and a count of the agent constructions performed
(each `ActivatorUtilities.CreateInstance` call). -/
structure ConnectorState where
  agents : List (String × MyAgent)
  defaultAgentConfig : MyAgentConfig
  constructions : Nat
deriving Repr, DecidableEq

/-- Modelled from the spec: the base class `WorkbenchConnector` (a library
whose source is not among the provided files) keeps the registered agents in a
dictionary `Agents` keyed by agent id; `GetAgent` returns the agent registered
under the given id, or null when none is. -/
def GetAgent (s : ConnectorState) (agentId : String) : Option MyAgent :=
  (s.agents.find? (fun kv => kv.1 == agentId)).map (fun kv => kv.2)

/-- Modelled from the spec: `ConcurrentDictionary.TryAdd` inserts the pair when
the key is absent and leaves the dictionary unchanged when it is present. -/
def tryAdd (agents : List (String × MyAgent)) (agentId : String) (agent : MyAgent) :
    List (String × MyAgent) :=
  if (agents.find? (fun kv => kv.1 == agentId)).isSome then agents
  else agents ++ [(agentId, agent)]

/-- `MyWorkbenchConnector.CreateAgentAsync`: return immediately when an agent
with this id is already registered; otherwise pick the configuration (the
JSON round-trip of `configData` when given and deserializable, else the
default), construct the agent, start it, and `TryAdd` it to `Agents`. The
JSON serialize/deserialize round-trip of an already-typed configuration is
modelled as the identity. -/
def CreateAgentAsync (s : ConnectorState) (agentId : String) (name : Option String)
    (configData : Option MyAgentConfig) : ConnectorState :=
  if (GetAgent s agentId).isSome then s
  else
    let config := match configData with
      | some cfg => cfg
      | none => s.defaultAgentConfig
    let agent : MyAgent :=
      { agentId := agentId
        agentName := name.getD agentId
        config := config
        started := true }
    { s with
      agents := tryAdd s.agents agentId agent
      constructions := s.constructions + 1 }

lemma getAgent_after_create (s : ConnectorState) (agentId : String)
    (name : Option String) (configData : Option MyAgentConfig) :
    (GetAgent (CreateAgentAsync s agentId name configData) agentId).isSome = true := by
  by_cases h : (GetAgent s agentId).isSome = true
  · simp [CreateAgentAsync, h]
  · have hnone : s.agents.find? (fun kv => kv.1 == agentId) = none := by
      simp only [GetAgent, Option.isSome_map] at h
      exact Option.not_isSome_iff_eq_none.mp (by simpa using h)
    simp [CreateAgentAsync, GetAgent, h, tryAdd, hnone, List.find?_append]

/-- Claim C10: `CreateAgentAsync` is idempotent in the agent id. When an agent
is already registered under `agentId`, the call returns the state unchanged —
no agent is constructed or started and the `Agents` dictionary is untouched —
and a second call with the same id (with any name and configuration) has no
further effect, so calling it twice equals calling it once. -/
theorem createAgentAsync_idempotent (s : ConnectorState) (agentId : String)
    (name configData name2 configData2 : _) :
    ((GetAgent s agentId).isSome = true → CreateAgentAsync s agentId name configData = s) ∧
    CreateAgentAsync (CreateAgentAsync s agentId name configData) agentId name2 configData2 =
      CreateAgentAsync s agentId name configData := by
  constructor
  · intro h
    simp [CreateAgentAsync, h]
  · have h := getAgent_after_create s agentId name configData
    generalize hX : CreateAgentAsync s agentId name configData = X at h ⊢
    simp [CreateAgentAsync, h]

/-- A connector with the agent `a1` already registered. -/
def connectorDemo : ConnectorState :=
  { agents := [("a1", ⟨"a1", "Agent One", ⟨"be helpful"⟩, true⟩)]
    defaultAgentConfig := ⟨"be helpful"⟩
    constructions := 0 }

/-- Witness for claim C10: creating `a1` again leaves the demo connector
unchanged, and a fresh id behaves idempotently across two calls. -/
theorem createAgentAsync_idempotent_witness :
    CreateAgentAsync connectorDemo "a1" none none = connectorDemo ∧
    CreateAgentAsync (CreateAgentAsync connectorDemo "a2" (some "Two") none) "a2" none
        (some ⟨"other"⟩) =
      CreateAgentAsync connectorDemo "a2" (some "Two") none :=
  ⟨(createAgentAsync_idempotent connectorDemo "a1" none none none none).1 (by decide),
   (createAgentAsync_idempotent connectorDemo "a2" (some "Two") none none
      (some ⟨"other"⟩)).2⟩

end SemanticWorkbench
